import Mathlib

/-!
Verification of the two-stage rocket ascent simulator against its
natural-language specification.

The development shallowly embeds the simulation engine of
`src/src/hooks/useSimulation.ts` (the "enhanced" RK4 variant that the
application ships) into Lean over the exact real numbers: JavaScript
`number` values become `ℝ`, `Math.exp`/`Math.sqrt`/`Math.sin`/`Math.cos`
become their `Real` counterparts, and the three phase `while` loops become
fuel-indexed structural recursions whose fuel provably dominates the
number of iterations the loop guards permit.  React state handling
(`useState`, `setSimulation`, logging) is presentation-layer and carries
no data into the returned `SimulationResult`; the impure inputs
`Date.now()` / `new Date()` are threaded explicitly as a `now` parameter.
-/

open Real

namespace Rocket

open scoped Classical

/-! ## Physical constants (`PHYSICS_CONSTANTS` in useSimulation.ts) -/

noncomputable def G : ℝ := 6.67430e-11

noncomputable def EARTH_MASS : ℝ := 5.9722e24

noncomputable def EARTH_RADIUS : ℝ := 6378137.0

noncomputable def EARTH_ROTATION_RATE : ℝ := 7.2921159e-5

noncomputable def STANDARD_GRAVITY : ℝ := 9.80665

noncomputable def KARMAN_LINE : ℝ := 100000

/-! ## Data model (`src/src/types/rocket.ts`) -/

structure RocketSpecifications where
  mass : ℝ
  stageSeparationMass : ℝ
  dragCoefficient : ℝ
  stage1BurnTime : ℝ
  stage1Thrust : ℝ
  stage1ISP : ℝ
  stage2BurnTime : ℝ
  stage2Thrust : ℝ
  stage2ISP : ℝ

structure LaunchParameters where
  latitude : ℝ
  longitude : ℝ
  orbitHeight : ℝ
  rocketSpecs : RocketSpecifications

structure TrajectoryPoint where
  time : ℝ
  altitude : ℝ
  velocity : ℝ
  acceleration : ℝ
  thrust : ℝ
  mass : ℝ
  x : ℝ
  y : ℝ
  z : ℝ
  stage : ℕ

structure DataPoint where
  time : ℝ
  value : ℝ
  stage : Option ℕ

structure PlotData where
  altitude : List DataPoint
  velocity : List DataPoint
  acceleration : List DataPoint
  thrust : List DataPoint
  mass : List DataPoint
  stage1Trajectory : List DataPoint
  stage2Trajectory : List DataPoint

structure OptimalParameters where
  requiredVelocity : ℝ
  launchAngle : ℝ
  stage1OptimalBurnTime : ℝ
  stage2OptimalBurnTime : ℝ
  maxAltitude : ℝ
  totalFlightTime : ℝ
  stageSeparationTime : ℝ
  stageSeparationAltitude : ℝ

structure SimulationResult where
  id : String
  status : String
  trajectoryData : List TrajectoryPoint
  stage1TrajectoryData : List TrajectoryPoint
  stage2TrajectoryData : List TrajectoryPoint
  plots : PlotData
  optimalParams : OptimalParameters
  timestamp : ℕ

/-! ## Atmosphere model (`getAtmosphericProperties`, US Standard Atmosphere layers) -/

structure AtmosphericLayer where
  altitude : ℝ
  temperature : ℝ
  pressure : ℝ
  lapseRate : ℝ

structure AtmosphericProperties where
  density : ℝ
  pressure : ℝ
  temperature : ℝ
  soundSpeed : ℝ

/-- Embeds `getAtmosphericProperties`.  The source's descending `for` loop over
`ATMOSPHERIC_LAYERS` picks the highest layer whose base altitude is ≤ the
(clamped) altitude; that search is rendered as the equivalent nested
conditional.  `Math.pow` on a positive base is `Real.rpow`. -/
noncomputable def getAtmosphericProperties (altitude0 : ℝ) : AtmosphericProperties :=
  let altitude := if altitude0 < 0 then 0 else altitude0
  if KARMAN_LINE < altitude then
    { density := 0, pressure := 0, temperature := 0, soundSpeed := 0 }
  else
    let layer : AtmosphericLayer :=
      if 71000 ≤ altitude then
        { altitude := 71000, temperature := 214.65, pressure := 3.9564, lapseRate := -0.002 }
      else if 51000 ≤ altitude then
        { altitude := 51000, temperature := 270.65, pressure := 66.939, lapseRate := -0.0028 }
      else if 47000 ≤ altitude then
        { altitude := 47000, temperature := 270.65, pressure := 110.91, lapseRate := 0.0 }
      else if 32000 ≤ altitude then
        { altitude := 32000, temperature := 228.65, pressure := 868.02, lapseRate := 0.0028 }
      else if 20000 ≤ altitude then
        { altitude := 20000, temperature := 216.65, pressure := 5474.9, lapseRate := 0.001 }
      else if 11000 ≤ altitude then
        { altitude := 11000, temperature := 216.65, pressure := 22632, lapseRate := 0.0 }
      else
        { altitude := 0, temperature := 288.15, pressure := 101325, lapseRate := -0.0065 }
    let h := altitude - layer.altitude
    let temperature := layer.temperature + layer.lapseRate * h
    let pressure :=
      if |layer.lapseRate| < 1e-10 then
        layer.pressure * Real.exp (-STANDARD_GRAVITY * h / (287.0 * layer.temperature))
      else
        Real.rpow (temperature / layer.temperature)
          (-STANDARD_GRAVITY / (287.0 * layer.lapseRate)) * layer.pressure
    let density := pressure / (287.0 * temperature)
    let soundSpeed := Real.sqrt (1.4 * 287.0 * temperature)
    { density := density, pressure := pressure, temperature := temperature,
      soundSpeed := soundSpeed }

/-! ## Gravity model (`getGravityVector`, J2 oblateness correction) -/

structure GravityVector where
  magnitude : ℝ
  gradient : ℝ

noncomputable def getGravityVector (altitude latitude : ℝ) : GravityVector :=
  let r := EARTH_RADIUS + altitude
  let latRad := latitude * π / 180
  let g := G * EARTH_MASS / (r * r)
  let J2 : ℝ := 1.08263e-3
  let Re := EARTH_RADIUS
  let j2Effect := 1.5 * J2 * (Re / r) * (Re / r) * (1 - 5 * Real.sin latRad * Real.sin latRad)
  let g2 := g * (1 + j2Effect)
  { magnitude := g2, gradient := -2 * g2 / r }

/-! ## Drag model (`getDragProperties`, compressibility correction) -/

structure DragProperties where
  dragForce : ℝ
  machNumber : ℝ
  dynamicPressure : ℝ
  adjustedDragCoeff : ℝ

noncomputable def getDragProperties (velocity altitude dragCoeff referenceArea : ℝ) :
    DragProperties :=
  let atm := getAtmosphericProperties altitude
  if atm.density < 1e-10 ∨ |velocity| < 0.1 then
    { dragForce := 0, machNumber := 0, dynamicPressure := 0, adjustedDragCoeff := dragCoeff }
  else
    let machNumber := |velocity| / atm.soundSpeed
    let dynamicPressure := 0.5 * atm.density * velocity * velocity
    let adjustedDragCoeff :=
      if 0.8 < machNumber then
        if machNumber < 1.2 then
          dragCoeff * (1 + 2.5 * (machNumber - 0.8) ^ 2)
        else
          dragCoeff * (1 + 1.5 / Real.sqrt machNumber)
      else dragCoeff
    let dragForce := dynamicPressure * adjustedDragCoeff * referenceArea
    { dragForce := dragForce, machNumber := machNumber, dynamicPressure := dynamicPressure,
      adjustedDragCoeff := adjustedDragCoeff }

/-! ## Propulsion model (`getPropulsionProperties`, altitude-compensated ISP) -/

structure PropulsionState where
  thrust : ℝ
  massFlowRate : ℝ
  exhaustVelocity : ℝ
  chamberPressure : ℝ
  nozzleEfficiency : ℝ

noncomputable def getPropulsionProperties (thrust isp altitude : ℝ) (isEngineOn : Bool) :
    PropulsionState :=
  if isEngineOn = false ∨ thrust ≤ 0 then
    { thrust := 0, massFlowRate := 0, exhaustVelocity := 0, chamberPressure := 0,
      nozzleEfficiency := 0 }
  else
    let atm := getAtmosphericProperties altitude
    let seaLevelIsp := isp
    let vacuumIsp := seaLevelIsp * 1.15
    let altitudeIsp := seaLevelIsp + (vacuumIsp - seaLevelIsp) * (1 - Real.exp (-altitude / 10000))
    let exhaustVelocity := altitudeIsp * STANDARD_GRAVITY
    let massFlowRate := thrust / exhaustVelocity
    let chamberPressure := atm.pressure + thrust / 10.0
    let nozzleEfficiency := min 1.0 (0.85 + 0.15 * (1 - Real.exp (-altitude / 20000)))
    { thrust := thrust * nozzleEfficiency, massFlowRate := massFlowRate,
      exhaustVelocity := exhaustVelocity, chamberPressure := chamberPressure,
      nozzleEfficiency := nozzleEfficiency }

/-! ## Guidance model (`getOptimalFlightPath`) -/

structure FlightPathGuidance where
  angle : ℝ
  pitchRate : ℝ
  guidance : String

noncomputable def getOptimalFlightPath (time altitude velocity targetAltitude : ℝ)
    (stage : ℕ) : FlightPathGuidance :=
  if time < 8.0 then
    { angle := π / 2, pitchRate := 0, guidance := "VERTICAL_ASCENT" }
  else if time < 15.0 then
    let progress := (time - 8.0) / 7.0
    let angle := (π / 2) * (1 - 0.1 * progress)
    { angle := angle, pitchRate := -0.01, guidance := "PITCH_INITIATION" }
  else
    -- `altitudeFraction`/`velocityFraction` are computed in the source but unused.
    let targetAngle :=
      if stage = 1 then
        if altitude < 10000 then π * 0.4
        else if altitude < 30000 then π * 0.35
        else π * 0.25
      else
        if altitude < 80000 then π * 0.2
        else if altitude < 150000 then π * 0.1
        else π * 0.05
    { angle := targetAngle, pitchRate := -0.005,
      guidance := if stage = 1 then "GRAVITY_TURN_S1" else "HORIZONTAL_INSERTION_S2" }

/-! ## State vector and derivatives -/

structure Position3 where
  x : ℝ
  y : ℝ
  z : ℝ

structure Velocity3 where
  vx : ℝ
  vy : ℝ
  vz : ℝ

structure EnhancedStateVector where
  position : Position3
  velocity : Velocity3
  mass : ℝ
  flightPathAngle : ℝ
  heading : ℝ
  time : ℝ

structure EnhancedDerivativeVector where
  dPosition : Position3
  dVelocity : Velocity3
  dMass : ℝ
  dFlightPathAngle : ℝ
  dHeading : ℝ

/-- Embeds `calculateEnhancedDerivatives`.  The source's validity guard is
`state.mass <= 1000 || isNaN(state.mass) || altitude < -1000`; over the exact
reals the `isNaN` disjunct can never fire, leaving the two order tests. -/
noncomputable def calculateEnhancedDerivatives (state : EnhancedStateVector)
    (thrust isp dragCoeff referenceArea latitude : ℝ) (isEngineOn : Bool)
    (stage : ℕ) (targetAltitude : ℝ) : EnhancedDerivativeVector :=
  let altitude := state.position.y
  let speed := Real.sqrt (state.velocity.vx * state.velocity.vx +
    state.velocity.vy * state.velocity.vy)
  if state.mass ≤ 1000 ∨ altitude < -1000 then
    { dPosition := { x := 0, y := 0, z := 0 },
      dVelocity := { vx := 0, vy := 0, vz := 0 },
      dMass := 0, dFlightPathAngle := 0, dHeading := 0 }
  else
    let gravity := getGravityVector altitude latitude
    let propulsion := getPropulsionProperties thrust isp altitude isEngineOn
    let drag := getDragProperties speed altitude dragCoeff referenceArea
    let guidance := getOptimalFlightPath state.time altitude speed targetAltitude stage
    let thrustForce := propulsion.thrust
    let dragForce := drag.dragForce
    let sinAngle := Real.sin state.flightPathAngle
    let cosAngle := Real.cos state.flightPathAngle
    let thrustAccelX := thrustForce / state.mass * cosAngle
    let thrustAccelY := thrustForce / state.mass * sinAngle
    let dragAccelX := if 0.1 < speed then -(dragForce / state.mass) * (state.velocity.vx / speed) else 0
    let dragAccelY := if 0.1 < speed then -(dragForce / state.mass) * (state.velocity.vy / speed) else 0
    let gravityAccelY := -gravity.magnitude
    let netAccelX := thrustAccelX + dragAccelX
    let netAccelY := thrustAccelY + dragAccelY + gravityAccelY
    let angleError := guidance.angle - state.flightPathAngle
    let angleRate := Real.sign angleError * min (|angleError| * 0.1) 0.02
    { dPosition := { x := state.velocity.vx, y := state.velocity.vy, z := 0 },
      dVelocity := { vx := netAccelX, vy := netAccelY, vz := 0 },
      dMass := -propulsion.massFlowRate,
      dFlightPathAngle := angleRate, dHeading := 0 }

/-- Embeds `enhancedRK4Step`, including the intermediate-state mass floors and
the final clamps on mass, altitude and flight-path angle. -/
noncomputable def enhancedRK4Step (state : EnhancedStateVector) (dt : ℝ)
    (thrust isp dragCoeff referenceArea latitude : ℝ) (isEngineOn : Bool)
    (stage : ℕ) (targetAltitude : ℝ) : EnhancedStateVector :=
  let k1 := calculateEnhancedDerivatives state thrust isp dragCoeff referenceArea latitude
    isEngineOn stage targetAltitude
  let state2 : EnhancedStateVector :=
    { position := { x := state.position.x + 0.5 * dt * k1.dPosition.x,
                    y := state.position.y + 0.5 * dt * k1.dPosition.y,
                    z := state.position.z + 0.5 * dt * k1.dPosition.z },
      velocity := { vx := state.velocity.vx + 0.5 * dt * k1.dVelocity.vx,
                    vy := state.velocity.vy + 0.5 * dt * k1.dVelocity.vy,
                    vz := state.velocity.vz + 0.5 * dt * k1.dVelocity.vz },
      mass := max (state.mass + 0.5 * dt * k1.dMass) 1000,
      flightPathAngle := state.flightPathAngle + 0.5 * dt * k1.dFlightPathAngle,
      heading := state.heading + 0.5 * dt * k1.dHeading,
      time := state.time + 0.5 * dt }
  let k2 := calculateEnhancedDerivatives state2 thrust isp dragCoeff referenceArea latitude
    isEngineOn stage targetAltitude
  let state3 : EnhancedStateVector :=
    { position := { x := state.position.x + 0.5 * dt * k2.dPosition.x,
                    y := state.position.y + 0.5 * dt * k2.dPosition.y,
                    z := state.position.z + 0.5 * dt * k2.dPosition.z },
      velocity := { vx := state.velocity.vx + 0.5 * dt * k2.dVelocity.vx,
                    vy := state.velocity.vy + 0.5 * dt * k2.dVelocity.vy,
                    vz := state.velocity.vz + 0.5 * dt * k2.dVelocity.vz },
      mass := max (state.mass + 0.5 * dt * k2.dMass) 1000,
      flightPathAngle := state.flightPathAngle + 0.5 * dt * k2.dFlightPathAngle,
      heading := state.heading + 0.5 * dt * k2.dHeading,
      time := state.time + 0.5 * dt }
  let k3 := calculateEnhancedDerivatives state3 thrust isp dragCoeff referenceArea latitude
    isEngineOn stage targetAltitude
  let state4 : EnhancedStateVector :=
    { position := { x := state.position.x + dt * k3.dPosition.x,
                    y := state.position.y + dt * k3.dPosition.y,
                    z := state.position.z + dt * k3.dPosition.z },
      velocity := { vx := state.velocity.vx + dt * k3.dVelocity.vx,
                    vy := state.velocity.vy + dt * k3.dVelocity.vy,
                    vz := state.velocity.vz + dt * k3.dVelocity.vz },
      mass := max (state.mass + dt * k3.dMass) 1000,
      flightPathAngle := state.flightPathAngle + dt * k3.dFlightPathAngle,
      heading := state.heading + dt * k3.dHeading,
      time := state.time + dt }
  let k4 := calculateEnhancedDerivatives state4 thrust isp dragCoeff referenceArea latitude
    isEngineOn stage targetAltitude
  { position :=
      { x := state.position.x + dt / 6 * (k1.dPosition.x + 2 * k2.dPosition.x +
          2 * k3.dPosition.x + k4.dPosition.x),
        y := max 0 (state.position.y + dt / 6 * (k1.dPosition.y + 2 * k2.dPosition.y +
          2 * k3.dPosition.y + k4.dPosition.y)),
        z := state.position.z + dt / 6 * (k1.dPosition.z + 2 * k2.dPosition.z +
          2 * k3.dPosition.z + k4.dPosition.z) },
    velocity :=
      { vx := state.velocity.vx + dt / 6 * (k1.dVelocity.vx + 2 * k2.dVelocity.vx +
          2 * k3.dVelocity.vx + k4.dVelocity.vx),
        vy := state.velocity.vy + dt / 6 * (k1.dVelocity.vy + 2 * k2.dVelocity.vy +
          2 * k3.dVelocity.vy + k4.dVelocity.vy),
        vz := state.velocity.vz + dt / 6 * (k1.dVelocity.vz + 2 * k2.dVelocity.vz +
          2 * k3.dVelocity.vz + k4.dVelocity.vz) },
    mass := max 1000 (state.mass + dt / 6 * (k1.dMass + 2 * k2.dMass + 2 * k3.dMass + k4.dMass)),
    flightPathAngle := max (-(π / 2)) (min (π / 2) (state.flightPathAngle +
      dt / 6 * (k1.dFlightPathAngle + 2 * k2.dFlightPathAngle + 2 * k3.dFlightPathAngle +
        k4.dFlightPathAngle))),
    heading := state.heading + dt / 6 * (k1.dHeading + 2 * k2.dHeading + 2 * k3.dHeading +
      k4.dHeading),
    time := state.time + dt }

/-! ## Simulation-wide parameters (local constants of `runSimulation`) -/

noncomputable def referenceArea : ℝ := 15.0

noncomputable def dt : ℝ := 0.25

noncomputable def maxSimulationTime : ℝ := 1200

/-- Embeds `parseFloat(t.toFixed(3))`: round to the nearest thousandth. -/
noncomputable def round3 (t : ℝ) : ℝ := (round (1000 * t) : ℤ) / 1000

/-- Earth-rotation velocity bonus `EARTH_ROTATION_RATE * EARTH_RADIUS *
Math.cos(latitude * Math.PI / 180)` computed at the top of `runSimulation`. -/
noncomputable def earthRotationBonus (latitude : ℝ) : ℝ :=
  EARTH_ROTATION_RATE * EARTH_RADIUS * Real.cos (latitude * π / 180)

/-- Initial `EnhancedStateVector` of `runSimulation`: origin position, horizontal
velocity seeded with the Earth-rotation bonus, full vehicle mass, vertical
flight-path angle, at time zero. -/
noncomputable def initialState (params : LaunchParameters) : EnhancedStateVector :=
  { position := { x := 0, y := 0, z := 0 },
    velocity := { vx := earthRotationBonus params.latitude, vy := 0, vz := 0 },
    mass := params.rocketSpecs.mass,
    flightPathAngle := π / 2,
    heading := π / 2,
    time := 0 }

/-- The `TrajectoryPoint` pushed by the stage-1 loop body (the unused `atm`
binding and the max-Q / max-acceleration trackers feed only `console.log`). -/
noncomputable def recordStage1Sample (specs : RocketSpecifications) (latitude : ℝ)
    (s : EnhancedStateVector) : TrajectoryPoint :=
  let speed := Real.sqrt (s.velocity.vx * s.velocity.vx + s.velocity.vy * s.velocity.vy)
  let drag := getDragProperties speed s.position.y specs.dragCoefficient referenceArea
  let propulsion := getPropulsionProperties specs.stage1Thrust specs.stage1ISP s.position.y true
  let thrustAccel := propulsion.thrust / s.mass
  let gravity := getGravityVector s.position.y latitude
  let dragAccel := drag.dragForce / s.mass
  let netAccel := thrustAccel - gravity.magnitude - dragAccel
  { time := round3 s.time, altitude := s.position.y, velocity := speed,
    acceleration := netAccel, thrust := propulsion.thrust, mass := s.mass,
    x := s.position.x, y := s.position.y, z := s.position.z, stage := 1 }

/-- The `TrajectoryPoint` pushed by the stage-2 loop body. -/
noncomputable def recordStage2Sample (specs : RocketSpecifications) (latitude : ℝ)
    (s : EnhancedStateVector) : TrajectoryPoint :=
  let speed := Real.sqrt (s.velocity.vx * s.velocity.vx + s.velocity.vy * s.velocity.vy)
  let drag := getDragProperties speed s.position.y specs.dragCoefficient referenceArea
  let propulsion := getPropulsionProperties specs.stage2Thrust specs.stage2ISP s.position.y true
  let thrustAccel := propulsion.thrust / s.mass
  let gravity := getGravityVector s.position.y latitude
  let dragAccel := drag.dragForce / s.mass
  let netAccel := thrustAccel - gravity.magnitude - dragAccel
  { time := round3 s.time, altitude := s.position.y, velocity := speed,
    acceleration := netAccel, thrust := propulsion.thrust, mass := s.mass,
    x := s.position.x, y := s.position.y, z := s.position.z, stage := 2 }

/-- The `TrajectoryPoint` pushed by the coast loop body (engine off, thrust 0). -/
noncomputable def recordCoastSample (specs : RocketSpecifications) (latitude : ℝ)
    (s : EnhancedStateVector) : TrajectoryPoint :=
  let speed := Real.sqrt (s.velocity.vx * s.velocity.vx + s.velocity.vy * s.velocity.vy)
  let gravity := getGravityVector s.position.y latitude
  let drag := getDragProperties speed s.position.y specs.dragCoefficient referenceArea
  let dragAccel := drag.dragForce / s.mass
  let netAccel := -gravity.magnitude - dragAccel
  { time := round3 s.time, altitude := s.position.y, velocity := speed,
    acceleration := netAccel, thrust := 0, mass := s.mass,
    x := s.position.x, y := s.position.y, z := s.position.z, stage := 2 }

/-- Stage-1 burn loop: `while (t < stage1BurnTime && y >= 0 && t < maxSimulationTime)`
record one sample, then advance one RK4 step with stage-1 thrust/ISP, engine on.
The fuel index dominates the iteration count (`stage1Loop_stable`); the guard is
untouched. -/
noncomputable def stage1Loop (specs : RocketSpecifications) (latitude targetAltitude : ℝ) :
    ℕ → EnhancedStateVector → List TrajectoryPoint × EnhancedStateVector
  | 0, s => ([], s)
  | n + 1, s =>
    if s.time < specs.stage1BurnTime ∧ 0 ≤ s.position.y ∧ s.time < maxSimulationTime then
      let sample := recordStage1Sample specs latitude s
      let rest := stage1Loop specs latitude targetAltitude n
        (enhancedRK4Step s dt specs.stage1Thrust specs.stage1ISP specs.dragCoefficient
          referenceArea latitude true 1 targetAltitude)
      (sample :: rest.1, rest.2)
    else ([], s)

/-- Stage-2 burn loop: `while (t < stage2EndTime && y >= 0 && t < maxSimulationTime)`
with stage-2 thrust/ISP, engine on. -/
noncomputable def stage2Loop (specs : RocketSpecifications)
    (latitude targetAltitude stage2EndTime : ℝ) :
    ℕ → EnhancedStateVector → List TrajectoryPoint × EnhancedStateVector
  | 0, s => ([], s)
  | n + 1, s =>
    if s.time < stage2EndTime ∧ 0 ≤ s.position.y ∧ s.time < maxSimulationTime then
      let sample := recordStage2Sample specs latitude s
      let rest := stage2Loop specs latitude targetAltitude stage2EndTime n
        (enhancedRK4Step s dt specs.stage2Thrust specs.stage2ISP specs.dragCoefficient
          referenceArea latitude true 2 targetAltitude)
      (sample :: rest.1, rest.2)
    else ([], s)

/-- Coast loop: `while (t < coastEndTime && y >= 0)` with zero thrust, engine off. -/
noncomputable def coastLoop (specs : RocketSpecifications)
    (latitude targetAltitude coastEndTime : ℝ) :
    ℕ → EnhancedStateVector → List TrajectoryPoint × EnhancedStateVector
  | 0, s => ([], s)
  | n + 1, s =>
    if s.time < coastEndTime ∧ 0 ≤ s.position.y then
      let sample := recordCoastSample specs latitude s
      let rest := coastLoop specs latitude targetAltitude coastEndTime n
        (enhancedRK4Step s dt 0 specs.stage2ISP specs.dragCoefficient
          referenceArea latitude false 2 targetAltitude)
      (sample :: rest.1, rest.2)
    else ([], s)

/-- `trajectoryData.reduce((max, point) => point.altitude > max.altitude ? point : max)`:
JavaScript `reduce` without a seed starts from the first element (and throws on an
empty array — `runSimulation` always produces at least one sample, so the `[]`
branch is unreachable and returns an arbitrary point). -/
noncomputable def reduceMaxAltitudePoint : List TrajectoryPoint → TrajectoryPoint
  | [] => { time := 0, altitude := 0, velocity := 0, acceleration := 0, thrust := 0,
            mass := 0, x := 0, y := 0, z := 0, stage := 1 }
  | h :: t => t.foldl (fun m point => if m.altitude < point.altitude then point else m) h

/-- Fuel budgets sufficient for the three phase loops: stage 1 and stage 2 are
cut off by `time < maxSimulationTime` with `time` advancing by `dt = 0.25` each
step (at most 4800 iterations from a non-negative entry time), the coast phase
by `time < entryTime + 120` (at most 480 iterations). -/
def stage1Fuel : ℕ := 4801

def stage2Fuel : ℕ := 4801

def coastFuel : ℕ := 481

/-- Embeds `runSimulation` from `src/src/hooks/useSimulation.ts`, generalized
over the loop fuels.  `now` stands for the impure `Date.now()` / `new Date()`
pair feeding only the result's `id` and `timestamp`.  React state updates and
`console.log` calls carry no data into the returned value and are omitted. -/
noncomputable def runSimulationFuel (f1 f2 f3 : ℕ) (params : LaunchParameters)
    (now : ℕ) : SimulationResult :=
  let specs := params.rocketSpecs
  let targetAltitude := params.orbitHeight * 1000
  let orbitalRadius := EARTH_RADIUS + targetAltitude
  let requiredOrbitalVelocity := Real.sqrt (G * EARTH_MASS / orbitalRadius)
  let effectiveRequiredVelocity := requiredOrbitalVelocity - earthRotationBonus params.latitude
  let r1 := stage1Loop specs params.latitude targetAltitude f1 (initialState params)
  let separationTime := r1.2.time
  let separationAltitude := r1.2.position.y
  let sepState : EnhancedStateVector := { r1.2 with mass := specs.stageSeparationMass }
  let stage2EndTime := separationTime + specs.stage2BurnTime
  let r2 := stage2Loop specs params.latitude targetAltitude stage2EndTime f2 sepState
  let coastEndTime := r2.2.time + 120
  let r3 := coastLoop specs params.latitude targetAltitude coastEndTime f3 r2.2
  let trajectoryData := r1.1 ++ r2.1 ++ r3.1
  let finalState := r3.2
  let finalSpeed := Real.sqrt (finalState.velocity.vx * finalState.velocity.vx +
    finalState.velocity.vy * finalState.velocity.vy)
  let finalAltitude := finalState.position.y
  let totalFlightTime := finalState.time
  let downrange := finalState.position.x
  let plots : PlotData :=
    { altitude := trajectoryData.map fun p => { time := p.time, value := p.altitude, stage := some p.stage },
      velocity := trajectoryData.map fun p => { time := p.time, value := p.velocity, stage := some p.stage },
      acceleration := trajectoryData.map fun p => { time := p.time, value := p.acceleration, stage := some p.stage },
      thrust := trajectoryData.map fun p => { time := p.time, value := p.thrust, stage := some p.stage },
      mass := trajectoryData.map fun p => { time := p.time, value := p.mass, stage := some p.stage },
      stage1Trajectory := (trajectoryData.filter fun p => p.stage = 1).map
        fun p => { time := p.time, value := p.altitude, stage := none },
      stage2Trajectory := (trajectoryData.filter fun p => p.stage = 2).map
        fun p => { time := p.time, value := p.altitude, stage := none } }
  let maxAltitudePoint := reduceMaxAltitudePoint trajectoryData
  -- `atan2(alt, downrange)` with a positive second argument is `arctan (alt / downrange)`;
  -- the subsequent `isNaN(launchAngle)` test can never fire over the reals.
  let launchAngle := if 0 < downrange then Real.arctan (finalAltitude / downrange) * 180 / π else 45
  let optimalParams : OptimalParameters :=
    { requiredVelocity := effectiveRequiredVelocity,
      launchAngle := launchAngle,
      stage1OptimalBurnTime := specs.stage1BurnTime,
      stage2OptimalBurnTime := specs.stage2BurnTime,
      maxAltitude := maxAltitudePoint.altitude,
      totalFlightTime := totalFlightTime,
      stageSeparationTime := separationTime,
      stageSeparationAltitude := separationAltitude }
  { id := toString now,
    status := "completed",
    trajectoryData := trajectoryData,
    stage1TrajectoryData := trajectoryData.filter fun p => p.stage = 1,
    stage2TrajectoryData := trajectoryData.filter fun p => p.stage = 2,
    plots := plots,
    optimalParams := optimalParams,
    timestamp := now }

/-- The simulator entry point with its sufficient fuel budgets. -/
noncomputable def runSimulation (params : LaunchParameters) (now : ℕ) : SimulationResult :=
  runSimulationFuel stage1Fuel stage2Fuel coastFuel params now

/-- Samples and exit state of the stage-1 burn phase of `runSimulation`. -/
noncomputable def stage1Run (params : LaunchParameters) :
    List TrajectoryPoint × EnhancedStateVector :=
  stage1Loop params.rocketSpecs params.latitude (params.orbitHeight * 1000) stage1Fuel
    (initialState params)

/-- Exit state of the stage-1 burn loop, at which separation occurs. -/
noncomputable def stage1ExitState (params : LaunchParameters) : EnhancedStateVector :=
  (stage1Run params).2

/-- The flight state right after stage separation: mass reset to the configured
stage-separation mass, everything else untouched. -/
noncomputable def separationState (params : LaunchParameters) : EnhancedStateVector :=
  { stage1ExitState params with mass := params.rocketSpecs.stageSeparationMass }

/-- Samples and exit state of the stage-2 burn phase of `runSimulation`. -/
noncomputable def stage2Run (params : LaunchParameters) :
    List TrajectoryPoint × EnhancedStateVector :=
  stage2Loop params.rocketSpecs params.latitude (params.orbitHeight * 1000)
    ((stage1ExitState params).time + params.rocketSpecs.stage2BurnTime) stage2Fuel
    (separationState params)

/-- Samples and exit state of the coast phase of `runSimulation`. -/
noncomputable def coastRun (params : LaunchParameters) :
    List TrajectoryPoint × EnhancedStateVector :=
  coastLoop params.rocketSpecs params.latitude (params.orbitHeight * 1000)
    ((stage2Run params).2.time + 120) coastFuel (stage2Run params).2

/-- Scenario A of the spec (§8): a Falcon-9-like two-stage vehicle aiming at a
400 km orbit from (28.5721, -80.6480). -/
noncomputable def scenarioAParams : LaunchParameters :=
  { latitude := 28.5721, longitude := -80.6480, orbitHeight := 400,
    rocketSpecs :=
      { mass := 549054, stageSeparationMass := 131000, dragCoefficient := 0.3,
        stage1BurnTime := 162, stage1Thrust := 7607000, stage1ISP := 282,
        stage2BurnTime := 397, stage2Thrust := 934000, stage2ISP := 421 } }

/-- Scenario B of the spec (§8): total mass equal to the stage-separation mass
(1000 kg each), violating the `mass > stageSeparationMass` data-model
invariant; remaining fields as in scenario A. -/
noncomputable def scenarioBParams : LaunchParameters :=
  { latitude := 28.5721, longitude := -80.6480, orbitHeight := 400,
    rocketSpecs :=
      { mass := 1000, stageSeparationMass := 1000, dragCoefficient := 0.3,
        stage1BurnTime := 162, stage1Thrust := 7607000, stage1ISP := 282,
        stage2BurnTime := 397, stage2Thrust := 934000, stage2ISP := 421 } }

/-- A specification whose total mass (1000 kg) never exceeds its separation
mass (2000 kg): under the claimed stage-1 loop guard the burn loop would
record no sample at all. -/
noncomputable def lowMassParams : LaunchParameters :=
  { latitude := 0, longitude := 0, orbitHeight := 400,
    rocketSpecs :=
      { mass := 1000, stageSeparationMass := 2000, dragCoefficient := 0.3,
        stage1BurnTime := 10, stage1Thrust := 100000, stage1ISP := 300,
        stage2BurnTime := 5, stage2Thrust := 50000, stage2ISP := 300 } }

theorem runSimulation_trajectoryData (params : LaunchParameters) (now : ℕ) :
    (runSimulation params now).trajectoryData =
      (stage1Run params).1 ++ (stage2Run params).1 ++ (coastRun params).1 := rfl

theorem runSimulation_stage1TrajectoryData (params : LaunchParameters) (now : ℕ) :
    (runSimulation params now).stage1TrajectoryData =
      ((stage1Run params).1 ++ (stage2Run params).1 ++ (coastRun params).1).filter
        fun p => p.stage = 1 := rfl

theorem runSimulation_stage2TrajectoryData (params : LaunchParameters) (now : ℕ) :
    (runSimulation params now).stage2TrajectoryData =
      ((stage1Run params).1 ++ (stage2Run params).1 ++ (coastRun params).1).filter
        fun p => p.stage = 2 := rfl

theorem runSimulation_status (params : LaunchParameters) (now : ℕ) :
    (runSimulation params now).status = "completed" := rfl

theorem runSimulation_separation (params : LaunchParameters) (now : ℕ) :
    (runSimulation params now).optimalParams.stageSeparationTime =
        (stage1ExitState params).time ∧
      (runSimulation params now).optimalParams.stageSeparationAltitude =
        (stage1ExitState params).position.y := ⟨rfl, rfl⟩

/-! ## Structural lemmas about the integrator -/

theorem enhancedRK4Step_time (s : EnhancedStateVector) (d thrust isp dragCoeff area lat : ℝ)
    (eng : Bool) (stage : ℕ) (target : ℝ) :
    (enhancedRK4Step s d thrust isp dragCoeff area lat eng stage target).time = s.time + d := rfl

theorem enhancedRK4Step_mass_ge (s : EnhancedStateVector)
    (d thrust isp dragCoeff area lat : ℝ) (eng : Bool) (stage : ℕ) (target : ℝ) :
    1000 ≤ (enhancedRK4Step s d thrust isp dragCoeff area lat eng stage target).mass :=
  le_max_left _ _

theorem enhancedRK4Step_alt_ge (s : EnhancedStateVector)
    (d thrust isp dragCoeff area lat : ℝ) (eng : Bool) (stage : ℕ) (target : ℝ) :
    0 ≤ (enhancedRK4Step s d thrust isp dragCoeff area lat eng stage target).position.y :=
  le_max_left _ _

theorem enhancedRK4Step_angle_ge (s : EnhancedStateVector)
    (d thrust isp dragCoeff area lat : ℝ) (eng : Bool) (stage : ℕ) (target : ℝ) :
    -(π / 2) ≤ (enhancedRK4Step s d thrust isp dragCoeff area lat eng stage target).flightPathAngle :=
  le_max_left _ _

theorem enhancedRK4Step_angle_le (s : EnhancedStateVector)
    (d thrust isp dragCoeff area lat : ℝ) (eng : Bool) (stage : ℕ) (target : ℝ) :
    (enhancedRK4Step s d thrust isp dragCoeff area lat eng stage target).flightPathAngle ≤ π / 2 :=
  max_le (by nlinarith [pi_pos]) (min_le_left _ _)

/-! ## Structural lemmas about the phase loops -/

theorem stage1Loop_succ_pos (specs : RocketSpecifications) (lat target : ℝ) (n : ℕ)
    (s : EnhancedStateVector)
    (h : s.time < specs.stage1BurnTime ∧ 0 ≤ s.position.y ∧ s.time < maxSimulationTime) :
    stage1Loop specs lat target (n + 1) s =
      (recordStage1Sample specs lat s ::
          (stage1Loop specs lat target n
            (enhancedRK4Step s dt specs.stage1Thrust specs.stage1ISP specs.dragCoefficient
              referenceArea lat true 1 target)).1,
        (stage1Loop specs lat target n
          (enhancedRK4Step s dt specs.stage1Thrust specs.stage1ISP specs.dragCoefficient
            referenceArea lat true 1 target)).2) := by
  simp only [stage1Loop]
  rw [if_pos h]

theorem stage1Loop_succ_neg (specs : RocketSpecifications) (lat target : ℝ) (n : ℕ)
    (s : EnhancedStateVector)
    (h : ¬(s.time < specs.stage1BurnTime ∧ 0 ≤ s.position.y ∧ s.time < maxSimulationTime)) :
    stage1Loop specs lat target (n + 1) s = ([], s) := by
  simp only [stage1Loop]
  rw [if_neg h]

theorem stage1Loop_exit (specs : RocketSpecifications) (lat target : ℝ)
    (s : EnhancedStateVector)
    (h : ¬(s.time < specs.stage1BurnTime ∧ 0 ≤ s.position.y ∧ s.time < maxSimulationTime)) :
    ∀ n, stage1Loop specs lat target n s = ([], s) := by
  intro n
  cases n with
  | zero => rfl
  | succ m => exact stage1Loop_succ_neg specs lat target m s h

theorem stage2Loop_succ_pos (specs : RocketSpecifications) (lat target endTime : ℝ) (n : ℕ)
    (s : EnhancedStateVector)
    (h : s.time < endTime ∧ 0 ≤ s.position.y ∧ s.time < maxSimulationTime) :
    stage2Loop specs lat target endTime (n + 1) s =
      (recordStage2Sample specs lat s ::
          (stage2Loop specs lat target endTime n
            (enhancedRK4Step s dt specs.stage2Thrust specs.stage2ISP specs.dragCoefficient
              referenceArea lat true 2 target)).1,
        (stage2Loop specs lat target endTime n
          (enhancedRK4Step s dt specs.stage2Thrust specs.stage2ISP specs.dragCoefficient
            referenceArea lat true 2 target)).2) := by
  simp only [stage2Loop]
  rw [if_pos h]

theorem stage2Loop_succ_neg (specs : RocketSpecifications) (lat target endTime : ℝ) (n : ℕ)
    (s : EnhancedStateVector)
    (h : ¬(s.time < endTime ∧ 0 ≤ s.position.y ∧ s.time < maxSimulationTime)) :
    stage2Loop specs lat target endTime (n + 1) s = ([], s) := by
  simp only [stage2Loop]
  rw [if_neg h]

theorem stage2Loop_exit (specs : RocketSpecifications) (lat target endTime : ℝ)
    (s : EnhancedStateVector)
    (h : ¬(s.time < endTime ∧ 0 ≤ s.position.y ∧ s.time < maxSimulationTime)) :
    ∀ n, stage2Loop specs lat target endTime n s = ([], s) := by
  intro n
  cases n with
  | zero => rfl
  | succ m => exact stage2Loop_succ_neg specs lat target endTime m s h

theorem coastLoop_succ_pos (specs : RocketSpecifications) (lat target endTime : ℝ) (n : ℕ)
    (s : EnhancedStateVector) (h : s.time < endTime ∧ 0 ≤ s.position.y) :
    coastLoop specs lat target endTime (n + 1) s =
      (recordCoastSample specs lat s ::
          (coastLoop specs lat target endTime n
            (enhancedRK4Step s dt 0 specs.stage2ISP specs.dragCoefficient
              referenceArea lat false 2 target)).1,
        (coastLoop specs lat target endTime n
          (enhancedRK4Step s dt 0 specs.stage2ISP specs.dragCoefficient
            referenceArea lat false 2 target)).2) := by
  simp only [coastLoop]
  rw [if_pos h]

theorem coastLoop_succ_neg (specs : RocketSpecifications) (lat target endTime : ℝ) (n : ℕ)
    (s : EnhancedStateVector) (h : ¬(s.time < endTime ∧ 0 ≤ s.position.y)) :
    coastLoop specs lat target endTime (n + 1) s = ([], s) := by
  simp only [coastLoop]
  rw [if_neg h]

theorem stage1Loop_length (specs : RocketSpecifications) (lat target : ℝ) :
    ∀ (n : ℕ) (s : EnhancedStateVector), (stage1Loop specs lat target n s).1.length ≤ n := by
  intro n
  induction n with
  | zero => intro s; simp [stage1Loop]
  | succ m ih =>
    intro s
    by_cases h : s.time < specs.stage1BurnTime ∧ 0 ≤ s.position.y ∧ s.time < maxSimulationTime
    · rw [stage1Loop_succ_pos specs lat target m s h]
      simpa using Nat.succ_le_succ (ih _)
    · rw [stage1Loop_succ_neg specs lat target m s h]
      simp

theorem stage2Loop_length (specs : RocketSpecifications) (lat target endTime : ℝ) :
    ∀ (n : ℕ) (s : EnhancedStateVector),
      (stage2Loop specs lat target endTime n s).1.length ≤ n := by
  intro n
  induction n with
  | zero => intro s; simp [stage2Loop]
  | succ m ih =>
    intro s
    by_cases h : s.time < endTime ∧ 0 ≤ s.position.y ∧ s.time < maxSimulationTime
    · rw [stage2Loop_succ_pos specs lat target endTime m s h]
      simpa using Nat.succ_le_succ (ih _)
    · rw [stage2Loop_succ_neg specs lat target endTime m s h]
      simp

theorem coastLoop_length (specs : RocketSpecifications) (lat target endTime : ℝ) :
    ∀ (n : ℕ) (s : EnhancedStateVector),
      (coastLoop specs lat target endTime n s).1.length ≤ n := by
  intro n
  induction n with
  | zero => intro s; simp [coastLoop]
  | succ m ih =>
    intro s
    by_cases h : s.time < endTime ∧ 0 ≤ s.position.y
    · rw [coastLoop_succ_pos specs lat target endTime m s h]
      simpa using Nat.succ_le_succ (ih _)
    · rw [coastLoop_succ_neg specs lat target endTime m s h]
      simp

theorem stage1Loop_stages (specs : RocketSpecifications) (lat target : ℝ) :
    ∀ (n : ℕ) (s : EnhancedStateVector) (q : TrajectoryPoint),
      q ∈ (stage1Loop specs lat target n s).1 → q.stage = 1 := by
  intro n
  induction n with
  | zero => intro s q hq; simp [stage1Loop] at hq
  | succ m ih =>
    intro s q hq
    by_cases h : s.time < specs.stage1BurnTime ∧ 0 ≤ s.position.y ∧ s.time < maxSimulationTime
    · rw [stage1Loop_succ_pos specs lat target m s h] at hq
      rcases List.mem_cons.mp hq with hq | hq
      · subst hq; rfl
      · exact ih _ _ hq
    · rw [stage1Loop_succ_neg specs lat target m s h] at hq
      simp at hq

theorem stage2Loop_stages (specs : RocketSpecifications) (lat target endTime : ℝ) :
    ∀ (n : ℕ) (s : EnhancedStateVector) (q : TrajectoryPoint),
      q ∈ (stage2Loop specs lat target endTime n s).1 → q.stage = 2 := by
  intro n
  induction n with
  | zero => intro s q hq; simp [stage2Loop] at hq
  | succ m ih =>
    intro s q hq
    by_cases h : s.time < endTime ∧ 0 ≤ s.position.y ∧ s.time < maxSimulationTime
    · rw [stage2Loop_succ_pos specs lat target endTime m s h] at hq
      rcases List.mem_cons.mp hq with hq | hq
      · subst hq; rfl
      · exact ih _ _ hq
    · rw [stage2Loop_succ_neg specs lat target endTime m s h] at hq
      simp at hq

theorem coastLoop_stages (specs : RocketSpecifications) (lat target endTime : ℝ) :
    ∀ (n : ℕ) (s : EnhancedStateVector) (q : TrajectoryPoint),
      q ∈ (coastLoop specs lat target endTime n s).1 → q.stage = 2 := by
  intro n
  induction n with
  | zero => intro s q hq; simp [coastLoop] at hq
  | succ m ih =>
    intro s q hq
    by_cases h : s.time < endTime ∧ 0 ≤ s.position.y
    · rw [coastLoop_succ_pos specs lat target endTime m s h] at hq
      rcases List.mem_cons.mp hq with hq | hq
      · subst hq; rfl
      · exact ih _ _ hq
    · rw [coastLoop_succ_neg specs lat target endTime m s h] at hq
      simp at hq

theorem stage1Loop_exit_alt (specs : RocketSpecifications) (lat target : ℝ) :
    ∀ (n : ℕ) (s : EnhancedStateVector), 0 ≤ s.position.y →
      0 ≤ (stage1Loop specs lat target n s).2.position.y := by
  intro n
  induction n with
  | zero => intro s hs; simpa [stage1Loop] using hs
  | succ m ih =>
    intro s hs
    by_cases h : s.time < specs.stage1BurnTime ∧ 0 ≤ s.position.y ∧ s.time < maxSimulationTime
    · rw [stage1Loop_succ_pos specs lat target m s h]
      exact ih _ (enhancedRK4Step_alt_ge _ _ _ _ _ _ _ _ _ _)
    · rw [stage1Loop_succ_neg specs lat target m s h]
      exact hs

theorem stage2Loop_exit_alt (specs : RocketSpecifications) (lat target endTime : ℝ) :
    ∀ (n : ℕ) (s : EnhancedStateVector), 0 ≤ s.position.y →
      0 ≤ (stage2Loop specs lat target endTime n s).2.position.y := by
  intro n
  induction n with
  | zero => intro s hs; simpa [stage2Loop] using hs
  | succ m ih =>
    intro s hs
    by_cases h : s.time < endTime ∧ 0 ≤ s.position.y ∧ s.time < maxSimulationTime
    · rw [stage2Loop_succ_pos specs lat target endTime m s h]
      exact ih _ (enhancedRK4Step_alt_ge _ _ _ _ _ _ _ _ _ _)
    · rw [stage2Loop_succ_neg specs lat target endTime m s h]
      exact hs

theorem stage1Loop_time_le (specs : RocketSpecifications) (lat target : ℝ) :
    ∀ (n : ℕ) (s : EnhancedStateVector), s.time ≤ (stage1Loop specs lat target n s).2.time := by
  intro n
  induction n with
  | zero => intro s; simp [stage1Loop]
  | succ m ih =>
    intro s
    by_cases h : s.time < specs.stage1BurnTime ∧ 0 ≤ s.position.y ∧ s.time < maxSimulationTime
    · rw [stage1Loop_succ_pos specs lat target m s h]
      refine le_trans ?_ (ih _)
      rw [enhancedRK4Step_time]
      have : (0 : ℝ) < dt := by norm_num [dt]
      linarith
    · rw [stage1Loop_succ_neg specs lat target m s h]

theorem stage2Loop_time_le (specs : RocketSpecifications) (lat target endTime : ℝ) :
    ∀ (n : ℕ) (s : EnhancedStateVector),
      s.time ≤ (stage2Loop specs lat target endTime n s).2.time := by
  intro n
  induction n with
  | zero => intro s; simp [stage2Loop]
  | succ m ih =>
    intro s
    by_cases h : s.time < endTime ∧ 0 ≤ s.position.y ∧ s.time < maxSimulationTime
    · rw [stage2Loop_succ_pos specs lat target endTime m s h]
      refine le_trans ?_ (ih _)
      rw [enhancedRK4Step_time]
      have : (0 : ℝ) < dt := by norm_num [dt]
      linarith
    · rw [stage2Loop_succ_neg specs lat target endTime m s h]

/-- Fuel sufficiency for the stage-1 loop: once the fuel covers the remaining
time budget (`maxSimulationTime ≤ s.time + n·dt`, with `time` advancing by
exactly `dt` per iteration), adding fuel does not change the result — the loop
exits through its own guard, exactly as the source `while` loop does. -/
theorem stage1Loop_stable (specs : RocketSpecifications) (lat target : ℝ) :
    ∀ (n k : ℕ) (s : EnhancedStateVector), maxSimulationTime ≤ s.time + n * dt →
      stage1Loop specs lat target (n + k) s = stage1Loop specs lat target n s := by
  intro n
  induction n with
  | zero =>
    intro k s hs
    have hneg : ¬(s.time < specs.stage1BurnTime ∧ 0 ≤ s.position.y ∧
        s.time < maxSimulationTime) := by
      rintro ⟨-, -, h3⟩
      simp only [Nat.cast_zero, zero_mul, add_zero] at hs
      linarith
    rw [stage1Loop_exit specs lat target s hneg, stage1Loop_exit specs lat target s hneg]
  | succ m ih =>
    intro k s hs
    by_cases h : s.time < specs.stage1BurnTime ∧ 0 ≤ s.position.y ∧ s.time < maxSimulationTime
    · have hrw : m + 1 + k = (m + k) + 1 := by omega
      rw [hrw, stage1Loop_succ_pos specs lat target (m + k) s h,
        stage1Loop_succ_pos specs lat target m s h]
      have hnext : maxSimulationTime ≤
          (enhancedRK4Step s dt specs.stage1Thrust specs.stage1ISP specs.dragCoefficient
            referenceArea lat true 1 target).time + m * dt := by
        rw [enhancedRK4Step_time]
        push_cast at hs ⊢
        linarith
      rw [ih k _ hnext]
    · rw [stage1Loop_exit specs lat target s h, stage1Loop_exit specs lat target s h]

theorem stage2Loop_stable (specs : RocketSpecifications) (lat target endTime : ℝ) :
    ∀ (n k : ℕ) (s : EnhancedStateVector), maxSimulationTime ≤ s.time + n * dt →
      stage2Loop specs lat target endTime (n + k) s =
        stage2Loop specs lat target endTime n s := by
  intro n
  induction n with
  | zero =>
    intro k s hs
    have hneg : ¬(s.time < endTime ∧ 0 ≤ s.position.y ∧ s.time < maxSimulationTime) := by
      rintro ⟨-, -, h3⟩
      simp only [Nat.cast_zero, zero_mul, add_zero] at hs
      linarith
    rw [stage2Loop_exit specs lat target endTime s hneg,
      stage2Loop_exit specs lat target endTime s hneg]
  | succ m ih =>
    intro k s hs
    by_cases h : s.time < endTime ∧ 0 ≤ s.position.y ∧ s.time < maxSimulationTime
    · have hrw : m + 1 + k = (m + k) + 1 := by omega
      rw [hrw, stage2Loop_succ_pos specs lat target endTime (m + k) s h,
        stage2Loop_succ_pos specs lat target endTime m s h]
      have hnext : maxSimulationTime ≤
          (enhancedRK4Step s dt specs.stage2Thrust specs.stage2ISP specs.dragCoefficient
            referenceArea lat true 2 target).time + m * dt := by
        rw [enhancedRK4Step_time]
        push_cast at hs ⊢
        linarith
      rw [ih k _ hnext]
    · rw [stage2Loop_exit specs lat target endTime s h,
        stage2Loop_exit specs lat target endTime s h]

theorem coastLoop_exit (specs : RocketSpecifications) (lat target endTime : ℝ)
    (s : EnhancedStateVector) (h : ¬(s.time < endTime ∧ 0 ≤ s.position.y)) :
    ∀ n, coastLoop specs lat target endTime n s = ([], s) := by
  intro n
  cases n with
  | zero => rfl
  | succ m => exact coastLoop_succ_neg specs lat target endTime m s h

theorem coastLoop_stable (specs : RocketSpecifications) (lat target endTime : ℝ) :
    ∀ (n k : ℕ) (s : EnhancedStateVector), endTime ≤ s.time + n * dt →
      coastLoop specs lat target endTime (n + k) s =
        coastLoop specs lat target endTime n s := by
  intro n
  induction n with
  | zero =>
    intro k s hs
    have hneg : ¬(s.time < endTime ∧ 0 ≤ s.position.y) := by
      rintro ⟨h1, -⟩
      simp only [Nat.cast_zero, zero_mul, add_zero] at hs
      linarith
    rw [coastLoop_exit specs lat target endTime s hneg,
      coastLoop_exit specs lat target endTime s hneg]
  | succ m ih =>
    intro k s hs
    by_cases h : s.time < endTime ∧ 0 ≤ s.position.y
    · have hrw : m + 1 + k = (m + k) + 1 := by omega
      rw [hrw, coastLoop_succ_pos specs lat target endTime (m + k) s h,
        coastLoop_succ_pos specs lat target endTime m s h]
      have hnext : endTime ≤
          (enhancedRK4Step s dt 0 specs.stage2ISP specs.dragCoefficient
            referenceArea lat false 2 target).time + m * dt := by
        rw [enhancedRK4Step_time]
        push_cast at hs ⊢
        linarith
      rw [ih k _ hnext]
    · rw [coastLoop_exit specs lat target endTime s h,
        coastLoop_exit specs lat target endTime s h]

/-! ## Claim theorems -/

/-- C3: after every single RK4 integration step, whatever the state and the
phase parameters, the returned state satisfies all three post-step clamps:
mass is at least the configured minimum floor of 1000 kg (hence strictly
positive), altitude is at least 0, and the flight-path angle lies within
[-π/2, π/2]. -/
theorem C3_post_step_clamps (s : EnhancedStateVector)
    (d thrust isp dragCoeff area lat : ℝ) (eng : Bool) (stage : ℕ) (target : ℝ) :
    1000 ≤ (enhancedRK4Step s d thrust isp dragCoeff area lat eng stage target).mass ∧
    0 < (enhancedRK4Step s d thrust isp dragCoeff area lat eng stage target).mass ∧
    0 ≤ (enhancedRK4Step s d thrust isp dragCoeff area lat eng stage target).position.y ∧
    -(π / 2) ≤ (enhancedRK4Step s d thrust isp dragCoeff area lat eng stage
      target).flightPathAngle ∧
    (enhancedRK4Step s d thrust isp dragCoeff area lat eng stage target).flightPathAngle ≤
      π / 2 := by
  refine ⟨enhancedRK4Step_mass_ge s d thrust isp dragCoeff area lat eng stage target, ?_,
    enhancedRK4Step_alt_ge s d thrust isp dragCoeff area lat eng stage target,
    enhancedRK4Step_angle_ge s d thrust isp dragCoeff area lat eng stage target,
    enhancedRK4Step_angle_le s d thrust isp dragCoeff area lat eng stage target⟩
  have := enhancedRK4Step_mass_ge s d thrust isp dragCoeff area lat eng stage target
  linarith

/-- C1 counterexample: on the scenario-B input — total mass equal to the
stage-separation mass, violating the data-model invariant — `runSimulation`
does not fail before producing a sample: it produces a non-empty trajectory
and a result with status "completed", so no `InvalidSpecification` error is
raised. -/
theorem C1_counterexample :
    (runSimulation scenarioBParams 0).trajectoryData ≠ [] ∧
    (runSimulation scenarioBParams 0).status = "completed" := by
  constructor
  · rw [runSimulation_trajectoryData]
    have hguard : (initialState scenarioBParams).time <
          scenarioBParams.rocketSpecs.stage1BurnTime ∧
        0 ≤ (initialState scenarioBParams).position.y ∧
        (initialState scenarioBParams).time < maxSimulationTime := by
      refine ⟨?_, ?_, ?_⟩ <;> norm_num [initialState, scenarioBParams, maxSimulationTime]
    have h1 : (stage1Run scenarioBParams).1 ≠ [] := by
      rw [stage1Run, show stage1Fuel = 4800 + 1 from rfl,
        stage1Loop_succ_pos _ _ _ _ _ hguard]
      simp
    intro hempty
    rw [List.append_eq_nil, List.append_eq_nil] at hempty
    exact h1 hempty.1.1
  · rfl

/-- C1 amended: `runSimulation` performs no validation of the rocket
specification at all — for every input, including one whose total mass equals
its stage-separation mass, it proceeds to integration and returns a
"completed" result containing at least one trajectory sample. -/
theorem C1_no_validation (params : LaunchParameters) (now : ℕ) :
    (runSimulation params now).status = "completed" ∧
    (runSimulation params now).trajectoryData ≠ [] := by
  refine ⟨rfl, ?_⟩
  have hy1 : 0 ≤ (stage1ExitState params).position.y := by
    rw [stage1ExitState, stage1Run]
    exact stage1Loop_exit_alt _ _ _ _ _ (by norm_num [initialState])
  have hy2 : 0 ≤ (stage2Run params).2.position.y := by
    rw [stage2Run]
    exact stage2Loop_exit_alt _ _ _ _ _ _ hy1
  have hcoast : (coastRun params).1 ≠ [] := by
    rw [coastRun, show coastFuel = 480 + 1 from rfl,
      coastLoop_succ_pos _ _ _ _ _ _ ⟨by linarith, hy2⟩]
    simp
  rw [runSimulation_trajectoryData]
  intro hempty
  rw [List.append_eq_nil, List.append_eq_nil] at hempty
  exact hcoast hempty.2

/-- C5 counterexample: with total mass 1000 kg and separation mass 2000 kg the
remaining mass never exceeds the separation mass, so under the claimed guard
the stage-1 loop would record no sample; the code nevertheless records
stage-1 samples, because its guard never tests the mass. -/
theorem C5_counterexample :
    lowMassParams.rocketSpecs.mass ≤ lowMassParams.rocketSpecs.stageSeparationMass ∧
    (runSimulation lowMassParams 0).stage1TrajectoryData ≠ [] := by
  refine ⟨by norm_num [lowMassParams], ?_⟩
  rw [runSimulation_stage1TrajectoryData]
  have hguard : (initialState lowMassParams).time <
        lowMassParams.rocketSpecs.stage1BurnTime ∧
      0 ≤ (initialState lowMassParams).position.y ∧
      (initialState lowMassParams).time < maxSimulationTime := by
    refine ⟨?_, ?_, ?_⟩ <;> norm_num [initialState, lowMassParams, maxSimulationTime]
  have hmem : recordStage1Sample lowMassParams.rocketSpecs lowMassParams.latitude
      (initialState lowMassParams) ∈
        (stage1Run lowMassParams).1 ++ (stage2Run lowMassParams).1 ++
          (coastRun lowMassParams).1 := by
    refine List.mem_append_left _ (List.mem_append_left _ ?_)
    rw [stage1Run, show stage1Fuel = 4800 + 1 from rfl,
      stage1Loop_succ_pos _ _ _ _ _ hguard]
    exact List.mem_cons_self _ _
  exact List.ne_nil_of_mem (List.mem_filter.mpr ⟨hmem, by simp [recordStage1Sample]⟩)

/-- C5 amended: the stage-1 burn loop iterates exactly while elapsed time <
stage-1 burn duration AND altitude ≥ 0 AND elapsed time < the 1200 s maximum
simulation time; the remaining mass is never compared against the separation
mass, so the loop does not exit when the mass stops exceeding it. -/
theorem C5_stage1_guard (specs : RocketSpecifications) (lat target : ℝ) (n : ℕ)
    (s : EnhancedStateVector) :
    (stage1Loop specs lat target (n + 1) s).1 ≠ [] ↔
      (s.time < specs.stage1BurnTime ∧ 0 ≤ s.position.y ∧ s.time < maxSimulationTime) := by
  by_cases h : s.time < specs.stage1BurnTime ∧ 0 ≤ s.position.y ∧ s.time < maxSimulationTime
  · rw [stage1Loop_succ_pos specs lat target n s h]
    simpa using h
  · rw [stage1Loop_succ_neg specs lat target n s h]
    simpa using h

/-- C6: at the stage-separation transition the flight state's mass is set to
the configured stage-separation mass exactly, the separation time and altitude
are recorded in the returned `OptimalParameters`, and the mass recorded at the
first trajectory sample tagged stage 2 equals that configured separation mass
exactly (unconditionally — such a sample always exists, because the coast loop
emits at least one stage-2 sample even when the stage-2 burn loop does not
run). -/
theorem C6_separation_mass_reset (params : LaunchParameters) (now : ℕ) :
    (separationState params).mass = params.rocketSpecs.stageSeparationMass ∧
    (runSimulation params now).optimalParams.stageSeparationTime =
      (stage1ExitState params).time ∧
    (runSimulation params now).optimalParams.stageSeparationAltitude =
      (stage1ExitState params).position.y ∧
    ((runSimulation params now).stage2TrajectoryData.head?).map TrajectoryPoint.mass =
      some params.rocketSpecs.stageSeparationMass := by
  refine ⟨rfl, rfl, rfl, ?_⟩
  have hy1 : 0 ≤ (stage1ExitState params).position.y := by
    rw [stage1ExitState, stage1Run]
    exact stage1Loop_exit_alt _ _ _ _ _ (by norm_num [initialState])
  rw [runSimulation_stage2TrajectoryData]
  have hf1 : ((stage1Run params).1.filter fun p => p.stage = 2) = [] := by
    rw [List.filter_eq_nil_iff]
    intro q hq
    rw [stage1Run] at hq
    have h1 := stage1Loop_stages _ _ _ _ _ _ hq
    simp [h1]
  have hf2 : ((stage2Run params).1.filter fun p => p.stage = 2) = (stage2Run params).1 := by
    rw [List.filter_eq_self]
    intro q hq
    rw [stage2Run] at hq
    have h2 := stage2Loop_stages _ _ _ _ _ _ _ hq
    simp [h2]
  have hf3 : ((coastRun params).1.filter fun p => p.stage = 2) = (coastRun params).1 := by
    rw [List.filter_eq_self]
    intro q hq
    rw [coastRun] at hq
    have h3 := coastLoop_stages _ _ _ _ _ _ _ hq
    simp [h3]
  rw [List.filter_append, List.filter_append, hf1, hf2, hf3, List.nil_append]
  by_cases hg2 : (separationState params).time <
      (stage1ExitState params).time + params.rocketSpecs.stage2BurnTime ∧
      0 ≤ (separationState params).position.y ∧
      (separationState params).time < maxSimulationTime
  · have h2 : (stage2Run params).1 =
        recordStage2Sample params.rocketSpecs params.latitude (separationState params) ::
          (stage2Loop params.rocketSpecs params.latitude (params.orbitHeight * 1000)
            ((stage1ExitState params).time + params.rocketSpecs.stage2BurnTime) 4800
            (enhancedRK4Step (separationState params) dt params.rocketSpecs.stage2Thrust
              params.rocketSpecs.stage2ISP params.rocketSpecs.dragCoefficient
              referenceArea params.latitude true 2 (params.orbitHeight * 1000))).1 := by
      rw [stage2Run, show stage2Fuel = 4800 + 1 from rfl,
        stage2Loop_succ_pos _ _ _ _ _ _ hg2]
    rw [h2, List.cons_append]
    rfl
  · have h2 : stage2Run params = ([], separationState params) := by
      rw [stage2Run]
      exact stage2Loop_exit _ _ _ _ _ hg2 _
    have hs2a : (stage2Run params).1 = [] := by rw [h2]
    have hs2b : (stage2Run params).2 = separationState params := by rw [h2]
    have hcoast : (coastRun params).1 =
        recordCoastSample params.rocketSpecs params.latitude (separationState params) ::
          (coastLoop params.rocketSpecs params.latitude (params.orbitHeight * 1000)
            ((separationState params).time + 120) 480
            (enhancedRK4Step (separationState params) dt 0 params.rocketSpecs.stage2ISP
              params.rocketSpecs.dragCoefficient referenceArea params.latitude false 2
              (params.orbitHeight * 1000))).1 := by
      have hy1' : 0 ≤ (separationState params).position.y := hy1
      rw [coastRun, hs2b, show coastFuel = 480 + 1 from rfl,
        coastLoop_succ_pos _ _ _ _ _ _ ⟨by linarith, hy1'⟩]
    rw [hs2a, hcoast, List.nil_append]
    rfl

/-- C7 counterexample: at sea level (altitude 0) with the engine on and a
commanded thrust of 100 N at 100 s ISP, the nozzle efficiency is 0.85, so the
returned `massFlowRate` (commanded thrust / exhaust velocity) differs from the
returned `effectiveThrust / exhaustVelocity` (which carries the 0.85 factor). -/
theorem C7_counterexample :
    (getPropulsionProperties 100 100 0 true).massFlowRate ≠
      (getPropulsionProperties 100 100 0 true).thrust /
        (getPropulsionProperties 100 100 0 true).exhaustVelocity := by
  have hcond : ¬((true : Bool) = false ∨ (100 : ℝ) ≤ 0) := by
    push_neg
    exact ⟨by simp, by norm_num⟩
  simp only [getPropulsionProperties]
  rw [if_neg hcond]
  norm_num [STANDARD_GRAVITY, Real.exp_zero, min_def]

/-- C7 amended: for an engine-on call with commanded thrust > 0, ISP > 0 and
altitude ≥ 0, the returned `massFlowRate` times the returned `exhaustVelocity`
equals the *commanded* thrust — not the returned effective thrust, which is
additionally scaled by the nozzle efficiency. -/
theorem C7_mass_flow_rate (thrust isp altitude : ℝ) (h1 : 0 < thrust) (h2 : 0 < isp)
    (h3 : 0 ≤ altitude) :
    (getPropulsionProperties thrust isp altitude true).massFlowRate *
      (getPropulsionProperties thrust isp altitude true).exhaustVelocity = thrust := by
  have hcond : ¬((true : Bool) = false ∨ thrust ≤ 0) := by
    push_neg
    exact ⟨by simp, h1⟩
  have hexp : Real.exp (-altitude / 10000) ≤ 1 := by
    rw [Real.exp_le_one_iff]
    have : (0:ℝ) < 10000 := by norm_num
    rw [div_nonpos_iff]
    right
    constructor
    · linarith
    · linarith
  have hev : 0 < (isp + (isp * 1.15 - isp) * (1 - Real.exp (-altitude / 10000))) *
      STANDARD_GRAVITY := by
    have hSG : (0:ℝ) < STANDARD_GRAVITY := by norm_num [STANDARD_GRAVITY]
    have hfac : 0 ≤ (isp * 1.15 - isp) * (1 - Real.exp (-altitude / 10000)) := by
      apply mul_nonneg
      · linarith
      · linarith
    positivity
  simp only [getPropulsionProperties]
  rw [if_neg hcond]
  exact div_mul_cancel₀ thrust (ne_of_gt hev)

/-- C7 witness: the amended mass-flow identity instantiated at commanded
thrust 100 N, ISP 100 s, altitude 0. -/
theorem C7_mass_flow_rate_witness :
    (0:ℝ) < 100 ∧ (0:ℝ) ≤ 0 ∧
      (getPropulsionProperties 100 100 0 true).massFlowRate *
        (getPropulsionProperties 100 100 0 true).exhaustVelocity = 100 :=
  ⟨by norm_num, le_refl 0,
    C7_mass_flow_rate 100 100 0 (by norm_num) (by norm_num) (le_refl 0)⟩

/-- C8: the `requiredVelocity` reported in `OptimalParameters` equals
sqrt(G·planetMass/(planetRadius + targetAltitude)) reduced by the
Earth-rotation bonus rotationRate·planetRadius·cos(latitude); for a 400 km
target orbit the square-root term lies within 0.5 m/s of 7,669 m/s. -/
theorem C8_required_velocity (params : LaunchParameters) (now : ℕ) :
    (runSimulation params now).optimalParams.requiredVelocity =
      Real.sqrt (G * EARTH_MASS / (EARTH_RADIUS + params.orbitHeight * 1000)) -
        EARTH_ROTATION_RATE * EARTH_RADIUS * Real.cos (params.latitude * π / 180) ∧
    7668.5 < Real.sqrt (G * EARTH_MASS / (EARTH_RADIUS + 400 * 1000)) ∧
    Real.sqrt (G * EARTH_MASS / (EARTH_RADIUS + 400 * 1000)) < 7669.5 := by
  refine ⟨rfl, ?_, ?_⟩
  · rw [Real.lt_sqrt (by norm_num)]
    simp only [G, EARTH_MASS, EARTH_RADIUS]
    rw [lt_div_iff₀ (by norm_num)]
    norm_num
  · rw [Real.sqrt_lt' (by norm_num)]
    simp only [G, EARTH_MASS, EARTH_RADIUS]
    rw [div_lt_iff₀ (by norm_num)]
    norm_num

/-- C9: the trajectory output of `runSimulation` is deterministic — it depends
only on the `LaunchParameters`; two runs differing only in the ambient clock
value (the sole impure input, feeding `id`/`timestamp`) produce identical
`TrajectorySample` sequences: the same length, and the same sample (hence
equal time, altitude, velocity, acceleration, thrust, mass, position and stage
tag) at every index. -/
theorem C9_determinism (params : LaunchParameters) (now1 now2 : ℕ) :
    (runSimulation params now1).trajectoryData = (runSimulation params now2).trajectoryData ∧
    (runSimulation params now1).trajectoryData.length =
      (runSimulation params now2).trajectoryData.length ∧
    ∀ i : ℕ, (runSimulation params now1).trajectoryData.get? i =
      (runSimulation params now2).trajectoryData.get? i :=
  ⟨rfl, rfl, fun _ => rfl⟩

/-- C10: the initial flight state carries horizontal velocity equal to the
Earth-rotation bonus at altitude 0 and time 0, and the first recorded
trajectory sample of every run reports velocity equal to the absolute value of
that bonus, which is strictly positive whenever the latitude has absolute
value below 90 degrees — regardless of the stage thrusts. -/
theorem C10_initial_velocity (params : LaunchParameters) (now : ℕ)
    (h : |params.latitude| < 90) :
    (initialState params).velocity.vx = earthRotationBonus params.latitude ∧
    (initialState params).position.y = 0 ∧
    (initialState params).time = 0 ∧
    ((runSimulation params now).trajectoryData.head?).map TrajectoryPoint.velocity =
      some |earthRotationBonus params.latitude| ∧
    0 < |earthRotationBonus params.latitude| := by
  have habs : (0:ℝ) ≤ 0 := le_refl 0
  refine ⟨rfl, rfl, rfl, ?_, ?_⟩
  · rw [runSimulation_trajectoryData]
    by_cases hg1 : (initialState params).time < params.rocketSpecs.stage1BurnTime ∧
        0 ≤ (initialState params).position.y ∧ (initialState params).time < maxSimulationTime
    · have h1 : (stage1Run params).1 =
          recordStage1Sample params.rocketSpecs params.latitude (initialState params) ::
            (stage1Loop params.rocketSpecs params.latitude (params.orbitHeight * 1000) 4800
              (enhancedRK4Step (initialState params) dt params.rocketSpecs.stage1Thrust
                params.rocketSpecs.stage1ISP params.rocketSpecs.dragCoefficient
                referenceArea params.latitude true 1 (params.orbitHeight * 1000))).1 := by
        rw [stage1Run, show stage1Fuel = 4800 + 1 from rfl,
          stage1Loop_succ_pos _ _ _ _ _ hg1]
      rw [h1, List.cons_append, List.cons_append]
      simp only [List.head?_cons, Option.map_some']
      congr 1
      show Real.sqrt (earthRotationBonus params.latitude * earthRotationBonus params.latitude +
        0 * 0) = _
      rw [mul_zero, add_zero, Real.sqrt_mul_self_eq_abs]
    · have hs1 : stage1Run params = ([], initialState params) := by
        rw [stage1Run]
        exact stage1Loop_exit _ _ _ _ hg1 _
      have hs1a : (stage1Run params).1 = [] := by rw [hs1]
      have hsep : separationState params =
          { initialState params with mass := params.rocketSpecs.stageSeparationMass } := by
        rw [separationState, stage1ExitState, hs1]
      by_cases hg2 : (separationState params).time <
          (stage1ExitState params).time + params.rocketSpecs.stage2BurnTime ∧
          0 ≤ (separationState params).position.y ∧
          (separationState params).time < maxSimulationTime
      · have h2 : (stage2Run params).1 =
            recordStage2Sample params.rocketSpecs params.latitude (separationState params) ::
              (stage2Loop params.rocketSpecs params.latitude (params.orbitHeight * 1000)
                ((stage1ExitState params).time + params.rocketSpecs.stage2BurnTime) 4800
                (enhancedRK4Step (separationState params) dt params.rocketSpecs.stage2Thrust
                  params.rocketSpecs.stage2ISP params.rocketSpecs.dragCoefficient
                  referenceArea params.latitude true 2 (params.orbitHeight * 1000))).1 := by
          rw [stage2Run, show stage2Fuel = 4800 + 1 from rfl,
            stage2Loop_succ_pos _ _ _ _ _ _ hg2]
        rw [hs1a, List.nil_append, h2, List.cons_append]
        simp only [List.head?_cons, Option.map_some']
        congr 1
        rw [hsep]
        show Real.sqrt (earthRotationBonus params.latitude * earthRotationBonus params.latitude +
          0 * 0) = _
        rw [mul_zero, add_zero, Real.sqrt_mul_self_eq_abs]
      · have h2 : stage2Run params = ([], separationState params) := by
          rw [stage2Run]
          exact stage2Loop_exit _ _ _ _ _ hg2 _
        have hs2a : (stage2Run params).1 = [] := by rw [h2]
        have hs2b : (stage2Run params).2 = separationState params := by rw [h2]
        have hy1' : 0 ≤ (separationState params).position.y := by
          rw [hsep]
          exact habs
        have hcoast : (coastRun params).1 =
            recordCoastSample params.rocketSpecs params.latitude (separationState params) ::
              (coastLoop params.rocketSpecs params.latitude (params.orbitHeight * 1000)
                ((separationState params).time + 120) 480
                (enhancedRK4Step (separationState params) dt 0 params.rocketSpecs.stage2ISP
                  params.rocketSpecs.dragCoefficient referenceArea params.latitude false 2
                  (params.orbitHeight * 1000))).1 := by
          rw [coastRun, hs2b, show coastFuel = 480 + 1 from rfl,
            coastLoop_succ_pos _ _ _ _ _ _ ⟨by linarith, hy1'⟩]
        rw [hs1a, List.nil_append, hs2a, List.nil_append, hcoast]
        simp only [List.head?_cons, Option.map_some']
        congr 1
        rw [hsep]
        show Real.sqrt (earthRotationBonus params.latitude * earthRotationBonus params.latitude +
          0 * 0) = _
        rw [mul_zero, add_zero, Real.sqrt_mul_self_eq_abs]
  · have hpi := Real.pi_pos
    have hlt := abs_lt.mp h
    have hcos : 0 < Real.cos (params.latitude * π / 180) := by
      apply Real.cos_pos_of_mem_Ioo
      constructor
      · have hx : (0:ℝ) < (params.latitude + 90) * π := by
          apply mul_pos _ hpi
          linarith [hlt.1]
        show -(π / 2) < params.latitude * π / 180
        nlinarith
      · have hx : (0:ℝ) < (90 - params.latitude) * π := by
          apply mul_pos _ hpi
          linarith [hlt.2]
        show params.latitude * π / 180 < π / 2
        nlinarith
    have hb : 0 < earthRotationBonus params.latitude := by
      rw [earthRotationBonus]
      have hpos : (0:ℝ) < EARTH_ROTATION_RATE * EARTH_RADIUS := by
        norm_num [EARTH_ROTATION_RATE, EARTH_RADIUS]
      exact mul_pos hpos hcos
    exact abs_pos.mpr (ne_of_gt hb)

/-- C10 witness: the first-sample velocity statement instantiated at the
scenario-A launch parameters (latitude 28.5721 degrees). -/
theorem C10_initial_velocity_witness :
    |scenarioAParams.latitude| < 90 ∧
    ((initialState scenarioAParams).velocity.vx = earthRotationBonus scenarioAParams.latitude ∧
     (initialState scenarioAParams).position.y = 0 ∧
     (initialState scenarioAParams).time = 0 ∧
     ((runSimulation scenarioAParams 0).trajectoryData.head?).map TrajectoryPoint.velocity =
       some |earthRotationBonus scenarioAParams.latitude| ∧
     0 < |earthRotationBonus scenarioAParams.latitude|) :=
  ⟨by norm_num [scenarioAParams, abs_lt],
    C10_initial_velocity scenarioAParams 0 (by norm_num [scenarioAParams, abs_lt])⟩

/-- C4: `runSimulation` terminates with a bounded trajectory — every phase
loop's iteration count is dominated by its fuel budget (derived from the phase
duration divided by the 0.25 s time step, plus margin), so granting the loops
any amount of extra fuel beyond the budgets leaves the result unchanged (the
loops exit through their own guards), and the total number of emitted
trajectory samples never exceeds the sum of the per-phase budgets. -/
theorem C4_termination (params : LaunchParameters) (now : ℕ) (f1 f2 f3 : ℕ)
    (h1 : stage1Fuel ≤ f1) (h2 : stage2Fuel ≤ f2) (h3 : coastFuel ≤ f3) :
    runSimulationFuel f1 f2 f3 params now = runSimulation params now ∧
    (runSimulation params now).trajectoryData.length ≤
      stage1Fuel + stage2Fuel + coastFuel := by
  constructor
  · obtain ⟨k1, rfl⟩ : ∃ k, f1 = stage1Fuel + k := ⟨f1 - stage1Fuel, by omega⟩
    obtain ⟨k2, rfl⟩ : ∃ k, f2 = stage2Fuel + k := ⟨f2 - stage2Fuel, by omega⟩
    obtain ⟨k3, rfl⟩ : ∃ k, f3 = coastFuel + k := ⟨f3 - coastFuel, by omega⟩
    have hb1 : maxSimulationTime ≤ (initialState params).time + (stage1Fuel : ℝ) * dt := by
      norm_num [initialState, maxSimulationTime, dt, stage1Fuel]
    have hL1 := stage1Loop_stable params.rocketSpecs params.latitude
      (params.orbitHeight * 1000) stage1Fuel k1 (initialState params) hb1
    have ht1 : (0:ℝ) ≤ (stage1Loop params.rocketSpecs params.latitude
        (params.orbitHeight * 1000) stage1Fuel (initialState params)).2.time := by
      have h := stage1Loop_time_le params.rocketSpecs params.latitude
        (params.orbitHeight * 1000) stage1Fuel (initialState params)
      simpa [initialState] using h
    have hb2 : maxSimulationTime ≤
        ({ (stage1Loop params.rocketSpecs params.latitude (params.orbitHeight * 1000)
            stage1Fuel (initialState params)).2 with
          mass := params.rocketSpecs.stageSeparationMass } : EnhancedStateVector).time +
        (stage2Fuel : ℝ) * dt := by
      have hd : (stage2Fuel : ℝ) * dt = 1200.25 := by norm_num [stage2Fuel, dt]
      show maxSimulationTime ≤ (stage1Loop params.rocketSpecs params.latitude
        (params.orbitHeight * 1000) stage1Fuel (initialState params)).2.time +
        (stage2Fuel : ℝ) * dt
      rw [hd]
      show (1200:ℝ) ≤ _
      linarith
    have hL2 := stage2Loop_stable params.rocketSpecs params.latitude
      (params.orbitHeight * 1000)
      ((stage1Loop params.rocketSpecs params.latitude (params.orbitHeight * 1000)
          stage1Fuel (initialState params)).2.time + params.rocketSpecs.stage2BurnTime)
      stage2Fuel k2
      ({ (stage1Loop params.rocketSpecs params.latitude (params.orbitHeight * 1000)
          stage1Fuel (initialState params)).2 with
        mass := params.rocketSpecs.stageSeparationMass }) hb2
    have hb3 : (stage2Loop params.rocketSpecs params.latitude (params.orbitHeight * 1000)
        ((stage1Loop params.rocketSpecs params.latitude (params.orbitHeight * 1000)
            stage1Fuel (initialState params)).2.time + params.rocketSpecs.stage2BurnTime)
        stage2Fuel
        ({ (stage1Loop params.rocketSpecs params.latitude (params.orbitHeight * 1000)
            stage1Fuel (initialState params)).2 with
          mass := params.rocketSpecs.stageSeparationMass })).2.time + 120 ≤
        (stage2Loop params.rocketSpecs params.latitude (params.orbitHeight * 1000)
          ((stage1Loop params.rocketSpecs params.latitude (params.orbitHeight * 1000)
              stage1Fuel (initialState params)).2.time + params.rocketSpecs.stage2BurnTime)
          stage2Fuel
          ({ (stage1Loop params.rocketSpecs params.latitude (params.orbitHeight * 1000)
              stage1Fuel (initialState params)).2 with
            mass := params.rocketSpecs.stageSeparationMass })).2.time +
          (coastFuel : ℝ) * dt := by
      have hd : (coastFuel : ℝ) * dt = 120.25 := by norm_num [coastFuel, dt]
      rw [hd]
      linarith
    have hL3 := coastLoop_stable params.rocketSpecs params.latitude
      (params.orbitHeight * 1000)
      ((stage2Loop params.rocketSpecs params.latitude (params.orbitHeight * 1000)
          ((stage1Loop params.rocketSpecs params.latitude (params.orbitHeight * 1000)
              stage1Fuel (initialState params)).2.time + params.rocketSpecs.stage2BurnTime)
          stage2Fuel
          ({ (stage1Loop params.rocketSpecs params.latitude (params.orbitHeight * 1000)
              stage1Fuel (initialState params)).2 with
            mass := params.rocketSpecs.stageSeparationMass })).2.time + 120)
      coastFuel k3
      ((stage2Loop params.rocketSpecs params.latitude (params.orbitHeight * 1000)
          ((stage1Loop params.rocketSpecs params.latitude (params.orbitHeight * 1000)
              stage1Fuel (initialState params)).2.time + params.rocketSpecs.stage2BurnTime)
          stage2Fuel
          ({ (stage1Loop params.rocketSpecs params.latitude (params.orbitHeight * 1000)
              stage1Fuel (initialState params)).2 with
            mass := params.rocketSpecs.stageSeparationMass })).2) hb3
    simp only [runSimulation, runSimulationFuel]
    rw [hL1, hL2, hL3]
  · rw [runSimulation_trajectoryData]
    have l1 : (stage1Run params).1.length ≤ stage1Fuel := by
      rw [stage1Run]
      exact stage1Loop_length _ _ _ _ _
    have l2 : (stage2Run params).1.length ≤ stage2Fuel := by
      rw [stage2Run]
      exact stage2Loop_length _ _ _ _ _ _
    have l3 : (coastRun params).1.length ≤ coastFuel := by
      rw [coastRun]
      exact coastLoop_length _ _ _ _ _ _
    simp only [List.length_append]
    omega

/-- C4 witness: termination bound instantiated at the scenario-A parameters
with fuels 5000/5000/500 beyond the budgets 4801/4801/481. -/
theorem C4_termination_witness :
    stage1Fuel ≤ 5000 ∧ stage2Fuel ≤ 5000 ∧ coastFuel ≤ 500 ∧
    (runSimulationFuel 5000 5000 500 scenarioAParams 0 = runSimulation scenarioAParams 0 ∧
      (runSimulation scenarioAParams 0).trajectoryData.length ≤
        stage1Fuel + stage2Fuel + coastFuel) :=
  ⟨by norm_num [stage1Fuel], by norm_num [stage2Fuel], by norm_num [coastFuel],
    C4_termination scenarioAParams 0 5000 5000 500 (by norm_num [stage1Fuel])
      (by norm_num [stage2Fuel]) (by norm_num [coastFuel])⟩

end Rocket
